import Mathlib

/-!
Shallow embedding of `src/main.py` (weatherApp): the weather API client,
the `WeatherData` record construction, the display update and the
fetch-and-display flow of `WeatherApp.__fetch_weather`.

JSON numbers are modelled as exact rationals; Python `round(x, 1)` is
modelled as round-half-to-even at one decimal place over the rationals.
-/

namespace WeatherApp

/-- JSON values, as produced by `response.json()`. -/
inductive Json where
  | str : String → Json
  | num : ℚ → Json
  | obj : List (String × Json) → Json
  | arr : List Json → Json

/-- Python errors that the code of `main.py` can raise. -/
inductive PyError where
  | keyError (key : String)
  | indexError
  | typeError
  | valueError (msg : String)
  | weatherAPIError (msg : String)
deriving DecidableEq, Repr

/-- Association-list lookup used to model Python `dict[key]` access. -/
def lookupKey (key : String) : List (String × Json) → Option Json
  | [] => none
  | (k, v) :: rest => if k = key then some v else lookupKey key rest

/-- Python subscript `value[key]`: a `KeyError` when the key is absent from a
dict, a `TypeError` when the value is not a dict. -/
def Json.index (j : Json) (key : String) : Except PyError Json :=
  match j with
  | .obj fields =>
    match lookupKey key fields with
    | some v => .ok v
    | none => .error (.keyError key)
  | _ => .error .typeError

/-- Python subscript `value[0]` on the `weather` field: an `IndexError` on an
empty list, a `TypeError` on a non-sequence. -/
def Json.atZero (j : Json) : Except PyError Json :=
  match j with
  | .arr [] => .error .indexError
  | .arr (x :: _) => .ok x
  | _ => .error .typeError

/-- Python numeric coercion in `main_data['temp'] - 273.15`: a `TypeError`
when the value is not a number. -/
def Json.asNum (j : Json) : Except PyError ℚ :=
  match j with
  | .num q => .ok q
  | _ => .error .typeError

/-- Round-half-to-even to an integer, the behaviour of Python `round`. -/
def roundHalfEven (q : ℚ) : ℤ :=
  let f : ℤ := ⌊q⌋
  let frac : ℚ := q - (f : ℚ)
  if frac < 1 / 2 then f
  else if 1 / 2 < frac then f + 1
  else if f % 2 = 0 then f else f + 1

/-- Python `round(x, 1)`: round-half-to-even at one decimal place. -/
def roundTo1 (q : ℚ) : ℚ := (roundHalfEven (q * 10) : ℚ) / 10

/-- The record stored by `WeatherData.__process_data`: `__climate`,
`__description`, `__temperature` (already shifted by `- 273.15`, not yet
rounded), `__pressure` and `__humidity`. -/
structure WeatherData where
  climate : Json
  description : Json
  temperatureStored : ℚ
  pressure : Json
  humidity : Json

/-- Model of `WeatherData.__process_data` (and hence of
`WeatherData.__init__`): the field accesses of lines 39-46 of `main.py`,
in source order, each one a bare Python subscript that can raise. -/
def WeatherData.processData (raw : Json) : Except PyError WeatherData := do
  let weatherList ← raw.index "weather"
  let weather ← weatherList.atZero
  let mainData ← raw.index "main"
  let climate ← weather.index "main"
  let description ← weather.index "description"
  let tempJson ← mainData.index "temp"
  let temp ← tempJson.asNum
  let pressure ← mainData.index "pressure"
  let humidity ← mainData.index "humidity"
  return { climate := climate
           description := description
           temperatureStored := temp - 273.15
           pressure := pressure
           humidity := humidity }

/-- The `temperature` property: `round(self.__temperature, 1)`. -/
def WeatherData.temperature (d : WeatherData) : ℚ :=
  roundTo1 d.temperatureStored

/-- The fixed `WeatherAPI.__base_url` constant. -/
def baseUrl : String := "https://api.openweathermap.org/data/2.5/weather"

/-- The request URL built by `WeatherAPI.get_weather` via f-string
interpolation: no percent-encoding of the city name. -/
def weatherUrl (apiKey city : String) : String :=
  baseUrl ++ "?q=" ++ city ++ "&appid=" ++ apiKey

/-- A transport stub for `requests.get(url)` followed by
`raise_for_status()` and `.json()`: either a parsed JSON body, or a
`requests.RequestException` description (DNS failure, connection refused,
non-2xx status). -/
def Transport : Type := String → Except String Json

/-- Model of `WeatherAPI.get_weather`: builds the URL, calls the
transport, and wraps any `RequestException` into `WeatherAPIError`. -/
def getWeather (apiKey : String) (transport : Transport) (city : String) :
    Except PyError Json :=
  match transport (weatherUrl apiKey city) with
  | .ok body => .ok body
  | .error e => .error (.weatherAPIError ("Failed to fetch weather data: " ++ e))

/-- The five value labels owned by `WeatherDisplay`. -/
structure Display where
  climateValue : String
  descValue : String
  tempValue : String
  pressureValue : String
  humidityValue : String
deriving DecidableEq, Repr

/-- Text rendering of a JSON value placed into a tkinter label. -/
def jsonText : Json → String
  | .str s => s
  | .num q => toString q
  | .obj _ => "object"
  | .arr _ => "array"

/-- Model of `WeatherDisplay.update_display`: writes all five value
labels from the record. -/
def updateDisplay (d : WeatherData) : Display :=
  { climateValue := jsonText d.climate
    descValue := jsonText d.description
    tempValue := toString d.temperature ++ "°C"
    pressureValue := jsonText d.pressure ++ " hPa"
    humidityValue := jsonText d.humidity ++ "%" }

/-- Outcome of one invocation of `WeatherApp.__fetch_weather`. -/
inductive FlowOutcome where
  /-- The happy path: `update_display` ran. -/
  | success : FlowOutcome
  /-- A `WeatherAPIError` or `ValueError` was caught and passed to
  `__show_error`, which prints the message. -/
  | errorShown (msg : String) : FlowOutcome
  /-- An exception of any other class escaped the `try` block uncaught. -/
  | uncaught (e : PyError) : FlowOutcome
deriving DecidableEq, Repr

/-- Model of `WeatherApp.__fetch_weather`: reads the selected city, raises
`ValueError` on an empty selection, fetches, constructs the record,
updates the display; only `WeatherAPIError` and `ValueError` are caught by
the `except` clause. Returns the display state after the call, the
outcome, and the list of URLs the transport was asked for (the network
call log). -/
def fetchWeather (apiKey : String) (transport : Transport) (disp : Display)
    (city : String) : Display × FlowOutcome × List String :=
  if city = "" then
    (disp, .errorShown "Please select a city", [])
  else
    let url := weatherUrl apiKey city
    match transport url with
    | .error e =>
      (disp, .errorShown ("Failed to fetch weather data: " ++ e), [url])
    | .ok raw =>
      match WeatherData.processData raw with
      | .error pe => (disp, .uncaught pe, [url])
      | .ok wd => (updateDisplay wd, .success, [url])

/-- The API key the shipped application passes to `WeatherAPI` in
`WeatherApp.__init__` (line 142 of `main.py`): the empty string. -/
def appApiKey : String := ""

/-! Access paths into the raw payload, mirroring the subscript chains of
`__process_data`: these name the values the source reads, so that the
record's fields can be compared against them. -/

/-- The value `raw['weather'][0]`. -/
def payloadWeather0 (raw : Json) : Except PyError Json :=
  raw.index "weather" >>= Json.atZero

/-- The value `raw['weather'][0]['main']`. -/
def payloadClimate (raw : Json) : Except PyError Json :=
  payloadWeather0 raw >>= (fun w => w.index "main")

/-- The value `raw['weather'][0]['description']`. -/
def payloadDescription (raw : Json) : Except PyError Json :=
  payloadWeather0 raw >>= (fun w => w.index "description")

/-- The number `raw['main']['temp']`, in Kelvin. -/
def payloadTempK (raw : Json) : Except PyError ℚ :=
  (raw.index "main" >>= (fun m => m.index "temp")) >>= Json.asNum

/-- The value `raw['main']['pressure']`. -/
def payloadPressure (raw : Json) : Except PyError Json :=
  raw.index "main" >>= (fun m => m.index "pressure")

/-- The value `raw['main']['humidity']`. -/
def payloadHumidity (raw : Json) : Except PyError Json :=
  raw.index "main" >>= (fun m => m.index "humidity")

/-! Concrete payloads and auxiliary stubs used to instantiate the
theorems below. -/

/-- The end-to-end success payload of the spec: overcast clouds at
298.15 K, 1012 hPa, 77 percent humidity. -/
def samplePayload : Json :=
  .obj [("weather", .arr [.obj [("main", .str "Clouds"),
                                ("description", .str "overcast clouds")]]),
        ("main", .obj [("temp", .num 298.15), ("pressure", .num 1012),
                       ("humidity", .num 77)])]

/-- The record that construction produces from `samplePayload`. -/
def sampleRecord : WeatherData :=
  { climate := .str "Clouds"
    description := .str "overcast clouds"
    temperatureStored := 298.15 - 273.15
    pressure := .num 1012
    humidity := .num 77 }

/-- A payload whose temperature is exactly 273.15 K. -/
def freezingPayload : Json :=
  .obj [("weather", .arr [.obj [("main", .str "Snow"),
                                ("description", .str "light snow")]]),
        ("main", .obj [("temp", .num 273.15), ("pressure", .num 1000),
                       ("humidity", .num 80)])]

/-- The record that construction produces from `freezingPayload`. -/
def freezingRecord : WeatherData :=
  { climate := .str "Snow"
    description := .str "light snow"
    temperatureStored := 273.15 - 273.15
    pressure := .num 1000
    humidity := .num 80 }

/-- A payload with no `weather` key at all. -/
def payloadNoWeather : Json :=
  .obj [("main", .obj [("temp", .num 300), ("pressure", .num 1000),
                       ("humidity", .num 50)])]

/-- A payload whose `weather` sequence is empty. -/
def payloadEmptyWeather : Json :=
  .obj [("weather", .arr []),
        ("main", .obj [("temp", .num 300), ("pressure", .num 1000),
                       ("humidity", .num 50)])]

/-- A well-shaped payload whose pressure is 0 and whose humidity is 200:
values outside the documented invariant ranges. -/
def payloadBadRanges : Json :=
  .obj [("weather", .arr [.obj [("main", .str "Haze"),
                                ("description", .str "haze")]]),
        ("main", .obj [("temp", .num 300), ("pressure", .num 0),
                       ("humidity", .num 200)])]

/-- The record that construction produces from `payloadBadRanges`. -/
def badRangesRecord : WeatherData :=
  { climate := .str "Haze"
    description := .str "haze"
    temperatureStored := 300 - 273.15
    pressure := .num 0
    humidity := .num 200 }

/-- A display whose five value labels are the initial empty strings. -/
def emptyDisplay : Display :=
  { climateValue := "", descValue := "", tempValue := "",
    pressureValue := "", humidityValue := "" }

/-- A transport stub that always answers `payloadNoWeather`. -/
def stubNoWeather : Transport := fun _ => .ok payloadNoWeather

/-- A transport stub that always answers `samplePayload`. -/
def stubSample : Transport := fun _ => .ok samplePayload

/-- A transport stub that always fails with a connection error. -/
def stubConnRefused : Transport := fun _ => .error "connection refused"

/-- The record invariants claimed by the data model: a positive integer
pressure and a humidity between 0 and 100. -/
def recordInvariants (wd : WeatherData) : Prop :=
  (∃ p : ℤ, wd.pressure = .num (p : ℚ) ∧ 0 < p) ∧
  (∃ h : ℤ, wd.humidity = .num (h : ℚ) ∧ 0 ≤ h ∧ h ≤ 100)

/-! General inversion lemmas for the `Except` monad and for the record
construction, shared by the theorems below. -/

/-- Binding a successful `Except` computation applies the continuation. -/
theorem okBind {ε α β : Type} (a : α) (f : α → Except ε β) :
    (Except.ok a >>= f) = f a := rfl

/-- Binding a failed `Except` computation keeps the failure. -/
theorem errorBind {ε α β : Type} (e : ε) (f : α → Except ε β) :
    ((Except.error e : Except ε α) >>= f) = Except.error e := rfl

/-- A successful `Except` bind came from a successful first step. -/
theorem bindOk_inv {ε α β : Type} {x : Except ε α} {f : α → Except ε β}
    {b : β} (h : x >>= f = .ok b) : ∃ a, x = .ok a ∧ f a = .ok b := by
  cases x with
  | ok a => exact ⟨a, rfl, h⟩
  | error e => exact Except.noConfusion h

/-- A successful construction read every access path successfully, and
each stored field is exactly the value read (temperature shifted by
273.15). -/
theorem processData_ok_fields (raw : Json) (wd : WeatherData)
    (h : WeatherData.processData raw = .ok wd) :
    payloadClimate raw = .ok wd.climate ∧
    payloadDescription raw = .ok wd.description ∧
    (∃ t : ℚ, payloadTempK raw = .ok t ∧ wd.temperatureStored = t - 273.15) ∧
    payloadPressure raw = .ok wd.pressure ∧
    payloadHumidity raw = .ok wd.humidity := by
  unfold WeatherData.processData at h
  obtain ⟨wl, h1, h⟩ := bindOk_inv h
  obtain ⟨w, h2, h⟩ := bindOk_inv h
  obtain ⟨m, h3, h⟩ := bindOk_inv h
  obtain ⟨c, h4, h⟩ := bindOk_inv h
  obtain ⟨dsc, h5, h⟩ := bindOk_inv h
  obtain ⟨tj, h6, h⟩ := bindOk_inv h
  obtain ⟨t, h7, h⟩ := bindOk_inv h
  obtain ⟨p, h8, h⟩ := bindOk_inv h
  obtain ⟨hu, h9, h⟩ := bindOk_inv h
  obtain rfl := (Except.ok.inj h).symm
  refine ⟨?_, ?_, ⟨t, ?_, rfl⟩, ?_, ?_⟩ <;>
    simp [payloadClimate, payloadDescription, payloadTempK, payloadPressure,
      payloadHumidity, payloadWeather0, okBind,
      h1, h2, h3, h4, h5, h6, h7, h8, h9]

/-! Claim theorems. -/

/-- C1, counterexample: with a stubbed transport answering a payload that
lacks the `weather` key, the flow run on the city Goa ends with an
uncaught `KeyError` rather than a user-visible message: construction does
not fail with a `ParseError` (it raises `KeyError` on a missing `weather`
key and `IndexError` on an empty `weather` sequence), and that fault
propagates out of `__fetch_weather`, whose `except` clause only catches
`WeatherAPIError` and `ValueError`. -/
theorem missing_weather_fault_escapes :
    (fetchWeather appApiKey stubNoWeather emptyDisplay "Goa").2.1 =
      .uncaught (.keyError "weather") ∧
    WeatherData.processData payloadNoWeather = .error (.keyError "weather") ∧
    WeatherData.processData payloadEmptyWeather = .error .indexError :=
  ⟨rfl, rfl, rfl⟩

/-- C1, amended: the errors the flow itself raises as `WeatherAPIError`
or `ValueError` are caught at the top of the flow and converted into a
user-visible message, but record construction on a malformed payload
raises a bare Python error (`KeyError`, `IndexError`, `TypeError`) that
the `except` clause does not catch, so it propagates out of the flow. -/
theorem flow_error_propagation (apiKey : String) (t : Transport)
    (d : Display) (city : String) (hcity : city ≠ "") :
    (∀ e, t (weatherUrl apiKey city) = .error e →
      (fetchWeather apiKey t d city).2.1 =
        .errorShown ("Failed to fetch weather data: " ++ e)) ∧
    (∀ raw pe, t (weatherUrl apiKey city) = .ok raw →
      WeatherData.processData raw = .error pe →
      (fetchWeather apiKey t d city).2.1 = .uncaught pe) ∧
    (fetchWeather apiKey t d "").2.1 = .errorShown "Please select a city" := by
  refine ⟨?_, ?_, rfl⟩
  · intro e he
    simp [fetchWeather, hcity, he]
  · intro raw pe hraw hpe
    simp [fetchWeather, hcity, hraw, hpe]

/-- C1, witness for the amended theorem: a connection failure is shown to
the user, while a payload without `weather` escapes as `KeyError`. -/
theorem flow_error_propagation_witness :
    (fetchWeather appApiKey stubConnRefused emptyDisplay "Goa").2.1 =
      .errorShown ("Failed to fetch weather data: " ++ "connection refused") ∧
    (fetchWeather appApiKey stubNoWeather emptyDisplay "Delhi").2.1 =
      .uncaught (.keyError "weather") :=
  ⟨(flow_error_propagation appApiKey stubConnRefused emptyDisplay "Goa"
      (by decide)).1 "connection refused" rfl,
   (flow_error_propagation appApiKey stubNoWeather emptyDisplay "Delhi"
      (by decide)).2.1 payloadNoWeather (.keyError "weather") rfl rfl⟩

/-- C2: whenever construction succeeds on a payload whose `main.temp` is
the number `temp`, the record's `temperature` property equals
`round(temp - 273.15, 1)` (round-half-to-even at one decimal); in
particular a payload with temp 273.15 yields 0.0 and one with temp
298.15 yields 25.0. -/
theorem temperature_is_rounded_celsius :
    (∀ raw wd temp, WeatherData.processData raw = .ok wd →
      payloadTempK raw = .ok temp →
      wd.temperature = roundTo1 (temp - 273.15)) ∧
    (∀ wd, WeatherData.processData freezingPayload = .ok wd →
      wd.temperature = 0) ∧
    (∀ wd, WeatherData.processData samplePayload = .ok wd →
      wd.temperature = 25) := by
  have key : ∀ raw wd temp, WeatherData.processData raw = .ok wd →
      payloadTempK raw = .ok temp →
      wd.temperature = roundTo1 (temp - 273.15) := by
    intro raw wd temp hok htemp
    obtain ⟨-, -, ⟨t, ht, hstored⟩, -, -⟩ := processData_ok_fields raw wd hok
    rw [htemp] at ht
    obtain rfl := Except.ok.inj ht
    unfold WeatherData.temperature
    rw [hstored]
  refine ⟨key, ?_, ?_⟩
  · intro wd h
    rw [key freezingPayload wd 273.15 h rfl]
    have h1 : ((273.15 : ℚ) - 273.15) * 10 = 0 := by norm_num
    simp only [roundTo1, roundHalfEven, h1]
    norm_num
  · intro wd h
    rw [key samplePayload wd 298.15 h rfl]
    have h1 : ((298.15 : ℚ) - 273.15) * 10 = 250 := by norm_num
    simp only [roundTo1, roundHalfEven, h1]
    norm_num

/-- C2, witness: the sample record carries 25.0 Celsius and the freezing
record 0.0 Celsius. -/
theorem temperature_is_rounded_celsius_witness :
    sampleRecord.temperature = roundTo1 (298.15 - 273.15) ∧
    freezingRecord.temperature = 0 ∧
    sampleRecord.temperature = 25 :=
  ⟨temperature_is_rounded_celsius.1 samplePayload sampleRecord 298.15 rfl rfl,
   temperature_is_rounded_celsius.2.1 freezingRecord rfl,
   temperature_is_rounded_celsius.2.2 sampleRecord rfl⟩

/-- C3, counterexample: construction performs no range validation: the
payload with pressure 0 and humidity 200 constructs successfully and the
resulting record violates the documented invariants. -/
theorem recordInvariants_counterexample :
    WeatherData.processData payloadBadRanges = .ok badRangesRecord ∧
    ¬ recordInvariants badRangesRecord := by
  refine ⟨rfl, ?_⟩
  intro hinv
  simp only [recordInvariants] at hinv
  obtain ⟨⟨p, hp, hppos⟩, -⟩ := hinv
  have hpr : badRangesRecord.pressure = .num 0 := rfl
  rw [hpr] at hp
  have hp0 : (0 : ℚ) = (p : ℚ) := Json.num.inj hp
  have : p = 0 := by exact_mod_cast hp0.symm
  omega

/-- C3, amended: pressure and humidity pass through unvalidated, so the
record satisfies the invariants exactly when the payload already does:
for every payload whose `main.pressure` is a positive integer and whose
`main.humidity` is an integer between 0 and 100, the constructed record
satisfies both invariants. -/
theorem recordInvariants_of_payload (raw : Json) (wd : WeatherData)
    (p h : ℤ)
    (hok : WeatherData.processData raw = .ok wd)
    (hp : payloadPressure raw = .ok (.num (p : ℚ))) (hppos : 0 < p)
    (hh : payloadHumidity raw = .ok (.num (h : ℚ)))
    (hh0 : 0 ≤ h) (hh100 : h ≤ 100) :
    recordInvariants wd := by
  obtain ⟨-, -, -, hpf, hhf⟩ := processData_ok_fields raw wd hok
  rw [hp] at hpf
  rw [hh] at hhf
  exact ⟨⟨p, (Except.ok.inj hpf).symm, hppos⟩,
         ⟨h, (Except.ok.inj hhf).symm, hh0, hh100⟩⟩

/-- C3, witness for the amended theorem: the sample record (1012 hPa,
77 percent) satisfies the invariants. -/
theorem recordInvariants_of_payload_witness : recordInvariants sampleRecord :=
  recordInvariants_of_payload samplePayload sampleRecord 1012 77 rfl rfl
    (by norm_num) rfl (by norm_num) (by norm_num)

/-- C4: with an empty city selection the flow fails with the validation
error message and the transport is never invoked: the network call log
is empty. -/
theorem emptyCity_validation_no_network (apiKey : String) (t : Transport)
    (d : Display) :
    (fetchWeather apiKey t d "").2.1 = .errorShown "Please select a city" ∧
    (fetchWeather apiKey t d "").2.2 = [] :=
  ⟨rfl, rfl⟩

/-- C5: when the transport fails, `get_weather` raises a
`WeatherAPIError` wrapping the cause description, and the flow shows
that message to the user instead of crashing. -/
theorem fetchError_wraps_and_surfaces (apiKey : String) (t : Transport)
    (d : Display) (city e : String) (hcity : city ≠ "")
    (he : t (weatherUrl apiKey city) = .error e) :
    getWeather apiKey t city =
      .error (.weatherAPIError ("Failed to fetch weather data: " ++ e)) ∧
    (fetchWeather apiKey t d city).2.1 =
      .errorShown ("Failed to fetch weather data: " ++ e) := by
  constructor
  · simp [getWeather, he]
  · simp [fetchWeather, hcity, he]

/-- C5, witness: a connection-refused transport error is wrapped and
surfaced for the city Goa. -/
theorem fetchError_wraps_and_surfaces_witness :
    getWeather appApiKey stubConnRefused "Goa" =
      .error (.weatherAPIError
        ("Failed to fetch weather data: " ++ "connection refused")) ∧
    (fetchWeather appApiKey stubConnRefused emptyDisplay "Goa").2.1 =
      .errorShown ("Failed to fetch weather data: " ++ "connection refused") :=
  fetchError_wraps_and_surfaces appApiKey stubConnRefused emptyDisplay "Goa"
    "connection refused" (by decide) rfl

/-- C6: the constructed record's climate is exactly `weather[0].main`,
its description exactly `weather[0].description`, and its pressure and
humidity exactly `main.pressure` and `main.humidity`, unchanged. -/
theorem fields_pass_through (raw : Json) (wd : WeatherData)
    (hok : WeatherData.processData raw = .ok wd) :
    payloadClimate raw = .ok wd.climate ∧
    payloadDescription raw = .ok wd.description ∧
    payloadPressure raw = .ok wd.pressure ∧
    payloadHumidity raw = .ok wd.humidity := by
  obtain ⟨h1, h2, -, h4, h5⟩ := processData_ok_fields raw wd hok
  exact ⟨h1, h2, h4, h5⟩

/-- C6, witness: the pass-through equalities hold on the sample payload
and its record. -/
theorem fields_pass_through_witness :
    payloadClimate samplePayload = .ok sampleRecord.climate ∧
    payloadDescription samplePayload = .ok sampleRecord.description ∧
    payloadPressure samplePayload = .ok sampleRecord.pressure ∧
    payloadHumidity samplePayload = .ok sampleRecord.humidity :=
  fields_pass_through samplePayload sampleRecord rfl

/-- C7: the request URL is the fixed base URL followed by q=, the city
name, appid= and the key, joined by plain string concatenation; a space
inside the city name is embedded verbatim, with no percent-encoding. -/
theorem url_plain_interpolation :
    (∀ apiKey city : String, weatherUrl apiKey city =
      "https://api.openweathermap.org/data/2.5/weather?q=" ++ city ++
        "&appid=" ++ apiKey) ∧
    weatherUrl "KEY" "New Delhi" =
      "https://api.openweathermap.org/data/2.5/weather?q=New Delhi&appid=KEY" :=
  ⟨fun _ _ => rfl, rfl⟩

/-- C8: constructing a record twice from the same payload yields records
whose five fields are pairwise equal. -/
theorem construction_deterministic (raw : Json) (wd1 wd2 : WeatherData)
    (h1 : WeatherData.processData raw = .ok wd1)
    (h2 : WeatherData.processData raw = .ok wd2) :
    wd1.climate = wd2.climate ∧ wd1.description = wd2.description ∧
    wd1.temperature = wd2.temperature ∧ wd1.pressure = wd2.pressure ∧
    wd1.humidity = wd2.humidity := by
  rw [h1] at h2
  obtain rfl := Except.ok.inj h2
  exact ⟨rfl, rfl, rfl, rfl, rfl⟩

/-- C8, witness: instantiated with the sample payload constructed twice. -/
theorem construction_deterministic_witness :
    sampleRecord.climate = sampleRecord.climate ∧
    sampleRecord.description = sampleRecord.description ∧
    sampleRecord.temperature = sampleRecord.temperature ∧
    sampleRecord.pressure = sampleRecord.pressure ∧
    sampleRecord.humidity = sampleRecord.humidity :=
  construction_deterministic samplePayload sampleRecord sampleRecord rfl rfl

/-- C9: when the flow ends in a handled error (empty selection, or a
fetch failure raised as `WeatherAPIError`), none of the five display
value labels changes: the display is updated only after construction
succeeds. -/
theorem display_unchanged_on_handled_error (apiKey : String) (t : Transport)
    (d : Display) (city msg : String)
    (h : (fetchWeather apiKey t d city).2.1 = .errorShown msg) :
    (fetchWeather apiKey t d city).1 = d := by
  by_cases hc : city = ""
  · simp [fetchWeather, hc]
  · cases ht : t (weatherUrl apiKey city) with
    | error e => simp [fetchWeather, hc, ht]
    | ok raw =>
      cases hp : WeatherData.processData raw with
      | error pe => simp [fetchWeather, hc, ht, hp] at h
      | ok wd => simp [fetchWeather, hc, ht, hp] at h

/-- C9, witness: after a connection failure the display still holds its
initial empty labels. -/
theorem display_unchanged_on_handled_error_witness :
    (fetchWeather appApiKey stubConnRefused emptyDisplay "Goa").1 =
      emptyDisplay :=
  display_unchanged_on_handled_error appApiKey stubConnRefused emptyDisplay
    "Goa" "Failed to fetch weather data: connection refused" rfl

/-- C10: the shipped application constructs its API client with the empty
string as key, so every request URL it issues ends in appid= followed by
nothing. -/
theorem shipped_empty_api_key :
    appApiKey = "" ∧
    ∀ city : String, weatherUrl appApiKey city =
      baseUrl ++ "?q=" ++ city ++ "&appid=" :=
  ⟨rfl, fun _ => String.append_empty _⟩

end WeatherApp
